import Mathlib

/-!
Verification development for the service-governance dashboard core
(`calculations.py`).  Each Python function that the specification's claims
depend on is embedded as an executable Lean definition; timestamps and
durations are modelled in seconds (integers for wall-clock times, so that
differences are exact), and pandas/numpy values are modelled by `ℚ` or `ℝ`.

The module `calculations.py` defines `log_anomaly` and `send_email_alert`
twice; Python makes the later definitions (lines 256-306) the effective
ones, so those are the definitions embedded here.
-/

/-! ## Alert dispatcher (`log_anomaly`, lines 278-306, and `send_email_alert`,
lines 256-271 — the effective, later definitions) -/

/-- The process-wide `last_alert_sent` mapping: metric name to the timestamp
(in seconds) of the last dispatched notification, `none` when the metric has
never been dispatched. -/
def AlertState : Type := String → Option ℤ

/-- The empty `last_alert_sent` mapping (process start). -/
def emptyAlertState : AlertState := fun _ => none

/-- Result of one `log_anomaly` invocation: the updated `last_alert_sent`
state, whether a log record was appended, whether the notification side
effect was attempted, and whether a transport failure was caught and logged
inside `send_email_alert`. -/
structure DispatchResult where
  state : AlertState
  logged : Bool
  emailed : Bool
  sendFailureLogged : Bool

/-- Embedding of `send_email_alert` (lines 256-271): the whole SMTP interaction sits in a
`try`/`except Exception` block, so a transport failure is converted into an
error-log record and never escapes.  The transport outcome is a parameter
(`Except.error` = the SMTP code raised); the returned `Bool` records whether
the failure branch logged an error. -/
def send_email_alert (transport : Except String Unit) : Bool :=
  match transport with
  | Except.ok _ => false
  | Except.error _ => true

/-- Four hours, the cool-down interval (`timedelta(hours=4)`), in seconds. -/
def fourHours : ℤ := 4 * 3600

/-- Embedding of `log_anomaly` (lines 278-306, the effective definition): acts only when
`color == "#F70D1A"` (CRITICAL); reads `last_alert_sent[metric_name]`; when
absent or more than 4 hours old it logs, sends the email (through
`send_email_alert`, which cannot raise), and records the current time. -/
def log_anomaly (st : AlertState) (metric_name status color : String) (now : ℤ)
    (transport : Except String Unit) : DispatchResult :=
  if color = "#F70D1A" then
    match st metric_name with
    | none =>
        { state := fun n => if n = metric_name then some now else st n,
          logged := true, emailed := true,
          sendFailureLogged := send_email_alert transport }
    | some last_time =>
        if now - last_time > fourHours then
          { state := fun n => if n = metric_name then some now else st n,
            logged := true, emailed := true,
            sendFailureLogged := send_email_alert transport }
        else
          { state := st, logged := false, emailed := false, sendFailureLogged := false }
  else
    { state := st, logged := false, emailed := false, sendFailureLogged := false }

lemma log_anomaly_fires (st : AlertState) (name status : String) (now : ℤ)
    (tr : Except String Unit)
    (h : st name = none ∨ ∃ last, st name = some last ∧ now - last > fourHours) :
    log_anomaly st name status "#F70D1A" now tr =
      { state := fun n => if n = name then some now else st n,
        logged := true, emailed := true,
        sendFailureLogged := send_email_alert tr } := by
  rcases h with h0 | ⟨last, hlast, hgt⟩
  · simp [log_anomaly, h0]
  · simp [log_anomaly, hlast, hgt]

lemma log_anomaly_suppresses (st : AlertState) (name status : String) (now last : ℤ)
    (tr : Except String Unit) (h : st name = some last) (hle : now - last ≤ fourHours) :
    log_anomaly st name status "#F70D1A" now tr =
      { state := st, logged := false, emailed := false, sendFailureLogged := false } := by
  have : ¬ (now - last > fourHours) := by omega
  simp [log_anomaly, h, this]

/-- A `last_alert_sent` state in which the metric `"Global FCR"` was
dispatched at time 0. -/
def recentAlertState : AlertState := fun n => if n = "Global FCR" then some 0 else none

/-- C1: on a CRITICAL classification the notification fires iff the metric
has no recorded last-dispatch time or strictly more than 4 hours have
elapsed; each trigger records the current time, so two CRITICAL calls within
4 hours notify exactly once and a further call after the window elapses
notifies again. -/
theorem log_anomaly_cooldown :
    (∀ (st : AlertState) (name status : String) (now : ℤ) (tr : Except String Unit),
      (log_anomaly st name status "#F70D1A" now tr).emailed = true ↔
        (st name = none ∨ ∃ last, st name = some last ∧ now - last > fourHours)) ∧
    (∀ (st : AlertState) (name status : String) (now : ℤ) (tr : Except String Unit),
      (log_anomaly st name status "#F70D1A" now tr).emailed = true →
        (log_anomaly st name status "#F70D1A" now tr).state name = some now) ∧
    (∀ (st : AlertState) (name s₁ s₂ s₃ : String) (t₀ t₁ t₂ : ℤ)
        (tr₁ tr₂ tr₃ : Except String Unit),
      st name = none → t₁ - t₀ ≤ fourHours → t₂ - t₀ > fourHours →
        (log_anomaly st name s₁ "#F70D1A" t₀ tr₁).emailed = true ∧
        (log_anomaly (log_anomaly st name s₁ "#F70D1A" t₀ tr₁).state
            name s₂ "#F70D1A" t₁ tr₂).emailed = false ∧
        (log_anomaly (log_anomaly (log_anomaly st name s₁ "#F70D1A" t₀ tr₁).state
            name s₂ "#F70D1A" t₁ tr₂).state name s₃ "#F70D1A" t₂ tr₃).emailed = true ∧
        (log_anomaly st name s₁ "#F70D1A" t₀ tr₁).state name = some t₀ ∧
        (log_anomaly (log_anomaly (log_anomaly st name s₁ "#F70D1A" t₀ tr₁).state
            name s₂ "#F70D1A" t₁ tr₂).state name s₃ "#F70D1A" t₂ tr₃).state name
          = some t₂) := by
  refine ⟨?_, ?_, ?_⟩
  · intro st name status now tr
    constructor
    · intro hmail
      by_contra hnot
      push_neg at hnot
      obtain ⟨h0, hrec⟩ := hnot
      obtain ⟨last, hlast⟩ := Option.ne_none_iff_exists'.mp h0
      have hle : now - last ≤ fourHours := by
        have := hrec last hlast
        omega
      rw [log_anomaly_suppresses st name status now last tr hlast hle] at hmail
      simp at hmail
    · intro h
      rw [log_anomaly_fires st name status now tr h]
  · intro st name status now tr hmail
    have h : st name = none ∨ ∃ last, st name = some last ∧ now - last > fourHours := by
      by_contra hnot
      push_neg at hnot
      obtain ⟨h0, hrec⟩ := hnot
      obtain ⟨last, hlast⟩ := Option.ne_none_iff_exists'.mp h0
      have hle : now - last ≤ fourHours := by
        have := hrec last hlast
        omega
      rw [log_anomaly_suppresses st name status now last tr hlast hle] at hmail
      simp at hmail
    rw [log_anomaly_fires st name status now tr h]
    simp
  · intro st name s₁ s₂ s₃ t₀ t₁ t₂ tr₁ tr₂ tr₃ h0 h1 h2
    have e₁ := log_anomaly_fires st name s₁ t₀ tr₁ (Or.inl h0)
    have hst₁ : (log_anomaly st name s₁ "#F70D1A" t₀ tr₁).state name = some t₀ := by
      rw [e₁]; simp
    have e₂ := log_anomaly_suppresses (log_anomaly st name s₁ "#F70D1A" t₀ tr₁).state
      name s₂ t₁ t₀ tr₂ hst₁ h1
    have hst₂ : (log_anomaly (log_anomaly st name s₁ "#F70D1A" t₀ tr₁).state
        name s₂ "#F70D1A" t₁ tr₂).state name = some t₀ := by
      rw [e₂]; exact hst₁
    have e₃ := log_anomaly_fires (log_anomaly (log_anomaly st name s₁ "#F70D1A" t₀ tr₁).state
        name s₂ "#F70D1A" t₁ tr₂).state name s₃ t₂ tr₃ (Or.inr ⟨t₀, hst₂, h2⟩)
    refine ⟨by rw [e₁], by rw [e₂], by rw [e₃], hst₁, by rw [e₃]; simp⟩

/-- Witness for C1 at concrete inputs: fresh state, dispatches at times 0,
14400 (exactly 4 h later, suppressed) and 14401 (past the window, fires). -/
theorem log_anomaly_cooldown_witness :
    (log_anomaly emptyAlertState "Global FCR" "CRITICAL PERFORMANCE DROP" "#F70D1A" 0
        (Except.ok ())).emailed = true ∧
    (log_anomaly (log_anomaly emptyAlertState "Global FCR" "CRITICAL PERFORMANCE DROP"
        "#F70D1A" 0 (Except.ok ())).state
        "Global FCR" "CRITICAL PERFORMANCE DROP" "#F70D1A" 14400 (Except.ok ())).emailed
      = false ∧
    (log_anomaly (log_anomaly (log_anomaly emptyAlertState "Global FCR"
        "CRITICAL PERFORMANCE DROP" "#F70D1A" 0 (Except.ok ())).state
        "Global FCR" "CRITICAL PERFORMANCE DROP" "#F70D1A" 14400 (Except.ok ())).state
        "Global FCR" "CRITICAL PERFORMANCE DROP" "#F70D1A" 14401 (Except.ok ())).emailed
      = true ∧
    (log_anomaly emptyAlertState "Global FCR" "CRITICAL PERFORMANCE DROP" "#F70D1A" 0
        (Except.ok ())).state "Global FCR" = some 0 ∧
    (log_anomaly (log_anomaly (log_anomaly emptyAlertState "Global FCR"
        "CRITICAL PERFORMANCE DROP" "#F70D1A" 0 (Except.ok ())).state
        "Global FCR" "CRITICAL PERFORMANCE DROP" "#F70D1A" 14400 (Except.ok ())).state
        "Global FCR" "CRITICAL PERFORMANCE DROP" "#F70D1A" 14401 (Except.ok ())).state
        "Global FCR" = some 14401 :=
  log_anomaly_cooldown.2.2 emptyAlertState "Global FCR"
    "CRITICAL PERFORMANCE DROP" "CRITICAL PERFORMANCE DROP" "CRITICAL PERFORMANCE DROP"
    0 14400 14401 (Except.ok ()) (Except.ok ()) (Except.ok ())
    rfl (by decide) (by decide)

/-- C2 counterexample: a CRITICAL invocation during the cool-down appends no
log record at all — the effective `log_anomaly` (lines 278-306) only logs
inside the cool-down gate, so a suppressed notification is not logged. -/
theorem log_anomaly_suppressed_not_logged :
    (log_anomaly recentAlertState "Global FCR" "CRITICAL PERFORMANCE DROP" "#F70D1A" 3600
        (Except.ok ())).logged = false := by
  decide

/-- C2 (amended): on every dispatcher invocation — in particular every
CRITICAL one — a structured log entry is appended exactly when the
notification fires; when the 4-hour cool-down suppresses the notification,
nothing is logged either. -/
theorem log_anomaly_logs_iff_emails (st : AlertState) (name status color : String)
    (now : ℤ) (tr : Except String Unit) :
    (log_anomaly st name status color now tr).logged =
      (log_anomaly st name status color now tr).emailed := by
  by_cases hc : color = "#F70D1A"
  · subst hc
    simp only [log_anomaly, if_pos rfl]
    cases st name with
    | none => rfl
    | some last =>
        by_cases hgt : now - last > fourHours
        · simp [hgt]
        · simp [hgt]
  · simp [log_anomaly, hc]

/-- C10: when the notification transport raises, the failure is caught and
logged inside `send_email_alert` and never alters the dispatcher's control
flow or result — in particular `last_alert_sent` is still set to the current
time, so the failed notification suppresses any further notification for the
metric for the next 4 hours. -/
theorem log_anomaly_send_failure_contained (st : AlertState) (name status : String)
    (now : ℤ) (e : String)
    (hfire : st name = none ∨ ∃ last, st name = some last ∧ now - last > fourHours) :
    (log_anomaly st name status "#F70D1A" now (Except.error e)).sendFailureLogged = true ∧
    (log_anomaly st name status "#F70D1A" now (Except.error e)).state name = some now ∧
    (∀ (status' : String) (now' : ℤ) (tr' : Except String Unit), now' - now ≤ fourHours →
      (log_anomaly (log_anomaly st name status "#F70D1A" now (Except.error e)).state
          name status' "#F70D1A" now' tr').emailed = false) ∧
    (∀ tr₁ tr₂ : Except String Unit,
      (log_anomaly st name status "#F70D1A" now tr₁).state =
        (log_anomaly st name status "#F70D1A" now tr₂).state ∧
      (log_anomaly st name status "#F70D1A" now tr₁).logged =
        (log_anomaly st name status "#F70D1A" now tr₂).logged ∧
      (log_anomaly st name status "#F70D1A" now tr₁).emailed =
        (log_anomaly st name status "#F70D1A" now tr₂).emailed) := by
  have hst : (log_anomaly st name status "#F70D1A" now (Except.error e)).state name
      = some now := by
    rw [log_anomaly_fires st name status now (Except.error e) hfire]; simp
  refine ⟨?_, hst, ?_, ?_⟩
  · rw [log_anomaly_fires st name status now (Except.error e) hfire]; rfl
  · intro status' now' tr' hle
    rw [log_anomaly_suppresses _ name status' now' now tr' hst hle]
  · intro tr₁ tr₂
    rw [log_anomaly_fires st name status now tr₁ hfire,
      log_anomaly_fires st name status now tr₂ hfire]
    exact ⟨rfl, rfl, rfl⟩

/-- Witness for C10 at concrete inputs: fresh state, failing transport. -/
theorem log_anomaly_send_failure_contained_witness :
    (log_anomaly emptyAlertState "Global FCR" "CRITICAL PERFORMANCE DROP" "#F70D1A" 0
        (Except.error "smtp down")).sendFailureLogged = true ∧
    (log_anomaly emptyAlertState "Global FCR" "CRITICAL PERFORMANCE DROP" "#F70D1A" 0
        (Except.error "smtp down")).state "Global FCR" = some 0 ∧
    (∀ (status' : String) (now' : ℤ) (tr' : Except String Unit), now' - 0 ≤ fourHours →
      (log_anomaly (log_anomaly emptyAlertState "Global FCR" "CRITICAL PERFORMANCE DROP"
          "#F70D1A" 0 (Except.error "smtp down")).state
          "Global FCR" status' "#F70D1A" now' tr').emailed = false) ∧
    (∀ tr₁ tr₂ : Except String Unit,
      (log_anomaly emptyAlertState "Global FCR" "CRITICAL PERFORMANCE DROP" "#F70D1A" 0
          tr₁).state =
        (log_anomaly emptyAlertState "Global FCR" "CRITICAL PERFORMANCE DROP" "#F70D1A" 0
          tr₂).state ∧
      (log_anomaly emptyAlertState "Global FCR" "CRITICAL PERFORMANCE DROP" "#F70D1A" 0
          tr₁).logged =
        (log_anomaly emptyAlertState "Global FCR" "CRITICAL PERFORMANCE DROP" "#F70D1A" 0
          tr₂).logged ∧
      (log_anomaly emptyAlertState "Global FCR" "CRITICAL PERFORMANCE DROP" "#F70D1A" 0
          tr₁).emailed =
        (log_anomaly emptyAlertState "Global FCR" "CRITICAL PERFORMANCE DROP" "#F70D1A" 0
          tr₂).emailed) :=
  log_anomaly_send_failure_contained emptyAlertState "Global FCR"
    "CRITICAL PERFORMANCE DROP" 0 "smtp down" (Or.inl rfl)

/-! ## SLA verdict (`check_sla` inside `calculate_metrics`, lines 134-141) -/

/-- The `targets` dictionary lookup with default (`targets.get(p_digit, 120)`,
line 139): thresholds in hours per priority digit. -/
def targets (p_digit : Char) : ℚ :=
  if p_digit = '1' then 4
  else if p_digit = '2' then 8
  else if p_digit = '3' then 120
  else if p_digit = '4' then 240
  else 120

/-- Embedding of `check_sla` (lines 136-139): scan the string form of the priority for its
first digit character, defaulting to `'3'`; compare the ticket's MTTR in
hours against the threshold for that digit. -/
def check_sla (priority : String) (mttr : ℚ) : String :=
  let p_digit := (priority.data.find? (fun c => c.isDigit)).getD '3'
  if mttr ≤ targets p_digit then "Compliant" else "Breach"

/-- The SLA verdict as the claim words it: the first decimal digit character
found anywhere in the priority string (default digit `3`), mapped through
the threshold table, `Compliant` iff MTTR is at most the threshold. -/
def slaVerdictSpec (priority : String) (mttr : ℚ) : String :=
  let d := ((priority.data.filter (fun c => c.isDigit)).headD '3')
  let threshold : ℚ :=
    if d = '1' then 4
    else if d = '2' then 8
    else if d = '3' then 120
    else if d = '4' then 240
    else 120
  if mttr ≤ threshold then "Compliant" else "Breach"

lemma find_eq_head_filter (p : Char → Bool) (l : List Char) :
    l.find? p = (l.filter p).head? := by
  induction l with
  | nil => rfl
  | cons c cs ih =>
      by_cases hc : p c
      · rw [List.find?_cons_of_pos _ hc, List.filter_cons_of_pos hc, List.head?_cons]
      · rw [List.find?_cons_of_neg _ hc, List.filter_cons_of_neg hc, ih]

/-- C4: the SLA verdict takes the first decimal digit anywhere in the
priority string (default `3`), maps it through 1↦4h, 2↦8h, 3↦120h, 4↦240h
(anything else 120h), and returns Compliant iff MTTR ≤ threshold; priority
"1 - Critical" gets the 4-hour threshold and an unparseable priority the
120-hour default. -/
theorem check_sla_spec :
    (∀ (priority : String) (mttr : ℚ), check_sla priority mttr = slaVerdictSpec priority mttr) ∧
    (∀ mttr : ℚ, check_sla "1 - Critical" mttr = if mttr ≤ 4 then "Compliant" else "Breach") ∧
    (∀ mttr : ℚ, check_sla "High" mttr = if mttr ≤ 120 then "Compliant" else "Breach") := by
  have htarget : ∀ d : Char,
      targets d = (if d = '1' then (4 : ℚ) else if d = '2' then 8 else if d = '3' then 120
        else if d = '4' then 240 else 120) := fun _ => rfl
  refine ⟨?_, ?_, ?_⟩
  · intro priority mttr
    have hd : (priority.data.find? (fun c => c.isDigit)).getD '3'
        = (priority.data.filter (fun c => c.isDigit)).headD '3' := by
      rw [find_eq_head_filter]
      cases (priority.data.filter (fun c => c.isDigit)) with
      | nil => rfl
      | cons c cs => rfl
    simp only [check_sla, slaVerdictSpec, hd, htarget]
  · intro mttr
    have h : (("1 - Critical" : String).data.find? (fun c => c.isDigit)).getD '3' = '1' := by
      decide
    have ht : targets '1' = 4 := by norm_num [targets]
    simp only [check_sla, h, ht]
  · intro mttr
    have h : (("High" : String).data.find? (fun c => c.isDigit)).getD '3' = '3' := by
      decide
    have ht : targets '3' = 120 := by rfl
    simp only [check_sla, h, ht]

/-! ## Business-hours calendar (`get_swedish_business_hours`, lines 58-72)

Naive local timestamps are modelled as seconds since a Thursday midnight
(1970-01-01 00:00 was a Thursday, weekday number 3 in pandas' Monday=0
convention); `none` models a missing (`NaT`) value. -/

/-- The `DatetimeIndex.weekday` of a timestamp in seconds (Monday = 0). -/
def weekdayOf (t : ℕ) : ℕ := (t / 86400 + 3) % 7

/-- The `DatetimeIndex.hour` of a timestamp in seconds. -/
def hourOf (t : ℕ) : ℕ := t % 86400 / 3600

/-- The weekday/weekend masks of lines 68-69 applied to one sample point. -/
def isBusinessMinute (t : ℕ) : Bool :=
  decide ((weekdayOf t ≤ 4 ∧ 7 ≤ hourOf t ∧ hourOf t < 18) ∨
    (5 ≤ weekdayOf t ∧ 8 ≤ hourOf t ∧ hourOf t < 16))

/-- Embedding of `get_swedish_business_hours` (lines 58-72): `pd.date_range(start, end,
freq=min)` enumerates `start + 60*k` for `k = 0 .. (end-start)/60` (anchored
at `start`, keeping its sub-minute offset); the function returns how many of
those sample points satisfy the weekday/weekend business masks. -/
def get_swedish_business_hours (created resolved : Option ℕ) : ℕ :=
  match created, resolved with
  | some start, some stop =>
      if stop ≤ start then 0
      else ((List.range ((stop - start) / 60 + 1)).filter
          (fun k => isBusinessMinute (start + 60 * k))).length
  | _, _ => 0

/-- The count the claim describes: whole minute boundaries (multiples of one
minute) lying in `[start, end]` inclusive that satisfy the business masks. -/
def wholeMinuteBoundaryMinutes (created resolved : Option ℕ) : ℕ :=
  match created, resolved with
  | some start, some stop =>
      if stop ≤ start then 0
      else (((List.range (stop / 60 + 1)).map (fun j => 60 * j)).filter
          (fun t => decide (start ≤ t) && isBusinessMinute t)).length
  | _, _ => 0

/-- C3 counterexample: `start` = Thursday 06:59:30, `end` = Thursday
07:00:00 (seconds 25170 and 25200).  The code samples only 06:59:30 (hour 6,
outside the window) and returns 0, while the count of business whole-minute
boundaries in the interval is 1 (07:00:00). -/
theorem get_swedish_business_hours_not_boundary_count :
    get_swedish_business_hours (some 25170) (some 25200) = 0 ∧
    wholeMinuteBoundaryMinutes (some 25170) (some 25200) = 1 := by
  constructor
  · decide
  · decide

lemma length_filter_range_shift (p : ℕ → Bool) (a m : ℕ) :
    ((List.range (a + m)).filter (fun j => decide (a ≤ j) && p j)).length
      = ((List.range m).filter (fun k => p (a + k))).length := by
  induction m with
  | zero =>
      have h : ((List.range a).filter (fun j => decide (a ≤ j) && p j)) = [] := by
        rw [List.filter_eq_nil_iff]
        intro j hj
        have : j < a := List.mem_range.mp hj
        have : ¬ a ≤ j := by omega
        simp [this]
      simp [h]
  | succ m ih =>
      rw [Nat.add_succ, List.range_succ, List.range_succ, List.filter_append,
        List.filter_append, List.length_append, List.length_append, ih]
      have h1 : decide (a ≤ a + m) = true := by simp
      by_cases hp : p (a + m)
      · simp [List.filter_singleton, h1, hp]
      · simp [List.filter_singleton, h1, hp]

/-- C3 (amended): missing endpoints or `end ≤ start` give 0; otherwise the
function counts the sample points `start + k` minutes for
`k = 0 .. (end-start)/1min` (anchored at `start`, not at whole-minute
boundaries) that fall in the business windows; whenever `start` is aligned
on a whole minute this equals the claim's boundary count. -/
theorem get_swedish_business_hours_spec :
    (∀ s e : Option ℕ, s = none ∨ e = none → get_swedish_business_hours s e = 0) ∧
    (∀ s e : ℕ, e ≤ s → get_swedish_business_hours (some s) (some e) = 0) ∧
    (∀ s e : ℕ, s < e → get_swedish_business_hours (some s) (some e) =
      ((List.range ((e - s) / 60 + 1)).filter
        (fun k => isBusinessMinute (s + 60 * k))).length) ∧
    (∀ s e : ℕ, 60 ∣ s → s < e → get_swedish_business_hours (some s) (some e) =
      wholeMinuteBoundaryMinutes (some s) (some e)) := by
  refine ⟨?_, ?_, ?_, ?_⟩
  · rintro s e (rfl | rfl)
    · rfl
    · cases s <;> rfl
  · intro s e h
    simp [get_swedish_business_hours, h]
  · intro s e h
    have h' : ¬ e ≤ s := by omega
    simp [get_swedish_business_hours, h']
  · rintro s e ⟨a, rfl⟩ hlt
    have h' : ¬ e ≤ 60 * a := by omega
    have h60 : (0 : ℕ) < 60 := by norm_num
    have hae : a ≤ e / 60 := (Nat.le_div_iff_mul_le h60).mpr (by omega)
    have hdiv : (e - 60 * a) / 60 = e / 60 - a := Nat.sub_mul_div e 60 a (by omega)
    have hsum : a + ((e - 60 * a) / 60 + 1) = e / 60 + 1 := by
      rw [hdiv]; omega
    simp only [get_swedish_business_hours, wholeMinuteBoundaryMinutes, if_neg h']
    rw [List.filter_map, List.length_map]
    have hcong : (List.range (e / 60 + 1)).filter
        ((fun t => decide (60 * a ≤ t) && isBusinessMinute t) ∘ (fun j => 60 * j))
        = (List.range (e / 60 + 1)).filter
          (fun j => decide (a ≤ j) && isBusinessMinute (60 * j)) := by
      apply List.filter_congr
      intro j _
      simp only [Function.comp]
      have : (60 * a ≤ 60 * j) ↔ (a ≤ j) := by omega
      simp [this]
    rw [hcong, ← hsum, length_filter_range_shift (fun j => isBusinessMinute (60 * j)) a]
    apply congrArg
    apply List.filter_congr
    intro k _
    have : 60 * (a + k) = 60 * a + 60 * k := by ring
    rw [this]

/-- Witness for C3 (amended) at concrete inputs: a full business Thursday
07:00-18:00 (points 25200 .. 64800 seconds), 661 sample minutes inside the
window, with `start` minute-aligned so the boundary count agrees. -/
theorem get_swedish_business_hours_spec_witness :
    get_swedish_business_hours none (some 100) = 0 ∧
    get_swedish_business_hours (some 100) (some 100) = 0 ∧
    get_swedish_business_hours (some 25200) (some 64800) =
      ((List.range ((64800 - 25200) / 60 + 1)).filter
        (fun k => isBusinessMinute (25200 + 60 * k))).length ∧
    get_swedish_business_hours (some 25200) (some 64800) =
      wholeMinuteBoundaryMinutes (some 25200) (some 64800) :=
  ⟨get_swedish_business_hours_spec.1 none (some 100) (Or.inl rfl),
   get_swedish_business_hours_spec.2.1 100 100 (by decide),
   get_swedish_business_hours_spec.2.2.1 25200 64800 (by decide),
   get_swedish_business_hours_spec.2.2.2 25200 64800 ⟨420, by decide⟩ (by decide)⟩

/-! ## Monthly FCR aggregation (`get_fcr_gauges`, lines 145-222)

A ticket is modelled by the four columns the computation reads;
`createdMonth` is the `Month_Period` derived from the parsed `Created`
column, `none` when `pd.to_datetime(..., errors=coerce)` produced `NaT`
(such rows are removed by `dropna`).  Months are linearly ordered values
(e.g. year*12+month).  The plotly gauge rendering is presentation glue; the
embedding returns, in loop order, the (month, value) pair each gauge
displays. -/

structure FcrTicket where
  createdMonth : Option ℕ
  first_assignment_group : String
  assignment_group : String
  resolution_code : String

/-- The hard-coded L1 group list (lines 150-151). -/
def l1_groups : List String :=
  ["Service Desk L1 Sweden", "Service Desk L1 Finland", "Service Desk L1 Denmark",
   "Service Desk L1 Norge", "Service Desk L1 English"]

/-- The hard-coded resolution-code list (line 152). -/
def resolution_codes : List String :=
  ["Solved (Permanently)", "Solved Remotely (Permanently)"]

/-- Python `str.strip()`: remove leading and trailing whitespace. -/
def strip (s : String) : String :=
  String.mk (((s.data.dropWhile Char.isWhitespace).reverse.dropWhile
    Char.isWhitespace).reverse)

/-- Rows surviving `dropna(subset=[Created])`, tagged with their
`Month_Period` (lines 154-156). -/
def month_rows (df : List FcrTicket) : List (ℕ × FcrTicket) :=
  df.filterMap (fun t => t.createdMonth.map (fun m => (m, t)))

/-- Embedding of `sorted(df[Month_Period].unique())` (line 158): the distinct months
present, ascending. -/
def sorted_months (df : List FcrTicket) : List ℕ :=
  (((month_rows df).map Prod.fst).dedup).insertionSort (· ≤ ·)

/-- Embedding of `sorted(...)[-6:]` (line 158): the last 6 of the sorted distinct months. -/
def fcr_months (df : List FcrTicket) : List ℕ :=
  (sorted_months df).drop ((sorted_months df).length - 6)

/-- The loop body of lines 162-171: restrict to the month, keep the tickets
whose trimmed `First_Assignment_group` is an L1 group, and of those the ones
still assigned to an L1 group with a permanent resolution code; the gauge
value is the percentage (0 when no ticket started at L1). -/
def fcr_value (df : List FcrTicket) (m : ℕ) : ℚ :=
  let month_df := ((month_rows df).filter (fun p => decide (p.1 = m))).map Prod.snd
  let l1_started := month_df.filter
    (fun t => l1_groups.contains (strip t.first_assignment_group))
  let fcr_tickets := l1_started.filter
    (fun t => l1_groups.contains (strip t.assignment_group) &&
      resolution_codes.contains (strip t.resolution_code))
  if 0 < l1_started.length then
    (fcr_tickets.length : ℚ) / (l1_started.length : ℚ) * 100
  else 0

/-- Embedding of `get_fcr_gauges` (lines 145-222), reduced to the data each gauge shows:
one (month, FCR percentage) pair per selected month, in loop order. -/
def get_fcr_gauges (df : List FcrTicket) : List (ℕ × ℚ) :=
  (fcr_months df).map (fun m => (m, fcr_value df m))

/-- The claim's denominator: tickets of month `m` whose trimmed
`First_Assignment_group` is in `l1_groups`. -/
def fcr_denominator (df : List FcrTicket) (m : ℕ) : ℕ :=
  (df.filter (fun t => l1_groups.contains (strip t.first_assignment_group) &&
    decide (t.createdMonth = some m))).length

/-- The claim's numerator: the denominator subset whose trimmed
`Assignment_group` is in `l1_groups` and trimmed `Resolution_code` is in
`resolution_codes`. -/
def fcr_numerator (df : List FcrTicket) (m : ℕ) : ℕ :=
  (df.filter (fun t =>
    (l1_groups.contains (strip t.assignment_group) &&
      resolution_codes.contains (strip t.resolution_code)) &&
    (l1_groups.contains (strip t.first_assignment_group) &&
      decide (t.createdMonth = some m)))).length

/-- The per-month value as the claim words it: numerator/denominator·100,
and 0 (not missing) when the denominator is empty. -/
def fcr_value_spec (df : List FcrTicket) (m : ℕ) : ℚ :=
  if fcr_denominator df m = 0 then 0
  else (fcr_numerator df m : ℚ) / (fcr_denominator df m : ℚ) * 100

lemma month_df_eq (df : List FcrTicket) (m : ℕ) :
    ((month_rows df).filter (fun p => decide (p.1 = m))).map Prod.snd
      = df.filter (fun t => decide (t.createdMonth = some m)) := by
  induction df with
  | nil => rfl
  | cons t ts ih =>
      cases hc : t.createdMonth with
      | none =>
          have h1 : month_rows (t :: ts) = month_rows ts := by
            simp [month_rows, List.filterMap_cons, hc]
          have h2 : decide (t.createdMonth = some m) = false := by
            simp [hc]
          rw [h1, ih, List.filter_cons, h2]
          simp
      | some mv =>
          have h1 : month_rows (t :: ts) = (mv, t) :: month_rows ts := by
            simp [month_rows, List.filterMap_cons, hc]
          rw [h1, List.filter_cons, List.filter_cons]
          by_cases hm : mv = m
          · subst hm
            simp [hc, ih]
          · simp [hc, hm, ih]

lemma fcr_value_eq_spec (df : List FcrTicket) (m : ℕ) :
    fcr_value df m = fcr_value_spec df m := by
  have hden : (((month_rows df).filter (fun p => decide (p.1 = m))).map Prod.snd).filter
      (fun t => l1_groups.contains (strip t.first_assignment_group))
      = df.filter (fun t => l1_groups.contains (strip t.first_assignment_group) &&
          decide (t.createdMonth = some m)) := by
    rw [month_df_eq, List.filter_filter]
  have hnum : (df.filter (fun t => l1_groups.contains (strip t.first_assignment_group) &&
        decide (t.createdMonth = some m))).filter
      (fun t => l1_groups.contains (strip t.assignment_group) &&
        resolution_codes.contains (strip t.resolution_code))
      = df.filter (fun t =>
        (l1_groups.contains (strip t.assignment_group) &&
          resolution_codes.contains (strip t.resolution_code)) &&
        (l1_groups.contains (strip t.first_assignment_group) &&
          decide (t.createdMonth = some m))) := by
    rw [List.filter_filter]
  simp only [fcr_value, hden, hnum]
  unfold fcr_value_spec fcr_denominator fcr_numerator
  rcases Nat.eq_zero_or_pos ((df.filter
      (fun t => l1_groups.contains (strip t.first_assignment_group) &&
        decide (t.createdMonth = some m))).length) with h | h
  · rw [if_neg (by omega), if_pos h]
  · rw [if_pos h, if_neg (by omega)]

lemma sorted_months_sorted_lt (df : List FcrTicket) :
    (sorted_months df).Sorted (· < ·) := by
  have hs : (sorted_months df).Sorted (· ≤ ·) :=
    List.sorted_insertionSort (· ≤ ·) _
  have hn : (sorted_months df).Nodup :=
    (List.perm_insertionSort (· ≤ ·) _).nodup_iff.mpr
      (List.nodup_dedup _)
  exact hs.lt_of_le hn

/-- C6: the monthly FCR series keeps only the last 6 distinct months present
in the data (a suffix of the ascending distinct-month list, hence length
min(6, #months) ≤ 6), is ascending, and each month's value is
numerator/denominator·100 with an empty denominator yielding 0. -/
theorem get_fcr_gauges_spec (df : List FcrTicket) :
    (get_fcr_gauges df).length ≤ 6 ∧
    (get_fcr_gauges df).length = min 6 (sorted_months df).length ∧
    ((get_fcr_gauges df).map Prod.fst).Sorted (· < ·) ∧
    List.IsSuffix ((get_fcr_gauges df).map Prod.fst) (sorted_months df) ∧
    (∀ m : ℕ, m ∈ sorted_months df ↔ ∃ t ∈ df, t.createdMonth = some m) ∧
    (∀ p ∈ get_fcr_gauges df, p.2 = fcr_value_spec df p.1) := by
  have hmap : (get_fcr_gauges df).map Prod.fst = fcr_months df := by
    simp only [get_fcr_gauges, List.map_map]
    have hcomp : (Prod.fst ∘ fun m => (m, fcr_value df m)) = id := by
      funext m; rfl
    rw [hcomp, List.map_id]
  have hlen : (fcr_months df).length
      = (sorted_months df).length - ((sorted_months df).length - 6) := by
    simp [fcr_months]
  have hlen' : (get_fcr_gauges df).length = (fcr_months df).length := by
    simp [get_fcr_gauges]
  refine ⟨?_, ?_, ?_, ?_, ?_, ?_⟩
  · omega
  · omega
  · rw [hmap]
    exact (sorted_months_sorted_lt df).sublist (List.drop_sublist _ _)
  · rw [hmap]
    exact List.drop_suffix _ _
  · intro m
    have h1 : m ∈ sorted_months df ↔ m ∈ ((month_rows df).map Prod.fst).dedup :=
      (List.perm_insertionSort (· ≤ ·) _).mem_iff
    rw [h1, List.mem_dedup]
    constructor
    · intro hmem
      obtain ⟨pr, hpr, hfst⟩ := List.mem_map.mp hmem
      obtain ⟨t, ht, hmap2⟩ := List.mem_filterMap.mp hpr
      cases hcm : t.createdMonth with
      | none => rw [hcm] at hmap2; simp at hmap2
      | some mv =>
          rw [hcm] at hmap2
          simp only [Option.map_some', Option.some.injEq] at hmap2
          refine ⟨t, ht, ?_⟩
          rw [hcm, ← hfst, ← hmap2]
    · rintro ⟨t, ht, hm⟩
      apply List.mem_map.mpr
      refine ⟨(m, t), List.mem_filterMap.mpr ⟨t, ht, ?_⟩, rfl⟩
      rw [hm]; rfl
  · intro p hp
    simp only [get_fcr_gauges, List.mem_map] at hp
    obtain ⟨m, _, rfl⟩ := hp
    exact fcr_value_eq_spec df m

/-- A concrete data set spanning 7 distinct months (plus one unparseable
`Created` row): month 1 is windowed away, month 2 is resolved at L1,
month 3 escalated, months 4-7 have no L1-started ticket. -/
def fcrSample : List FcrTicket :=
  [⟨none, "Service Desk L1 Sweden", "Service Desk L1 Sweden", "Solved (Permanently)"⟩,
   ⟨some 1, "Service Desk L1 Sweden", "Service Desk L1 Sweden", "Solved (Permanently)"⟩,
   ⟨some 2, "Service Desk L1 Sweden", "Service Desk L1 Sweden", "Solved (Permanently)"⟩,
   ⟨some 3, "Service Desk L1 Sweden", "2nd Line Support", "Solved (Permanently)"⟩,
   ⟨some 4, "Field Services", "Field Services", "Solved (Workaround)"⟩,
   ⟨some 5, "Field Services", "Field Services", "Solved (Workaround)"⟩,
   ⟨some 6, "Field Services", "Field Services", "Solved (Workaround)"⟩,
   ⟨some 7, "Field Services", "Field Services", "Solved (Workaround)"⟩]

/-- Witness for C6 at a concrete 7-month data set: the series is the last 6
months ascending, the spec value formula holds pointwise, and it evaluates
to 100% for month 2 and 0 (not missing) for the L1-empty months. -/
theorem get_fcr_gauges_spec_witness :
    ((get_fcr_gauges fcrSample).map Prod.fst).Sorted (· < ·) ∧
    (∀ p ∈ get_fcr_gauges fcrSample, p.2 = fcr_value_spec fcrSample p.1) ∧
    get_fcr_gauges fcrSample = [(2, 100), (3, 0), (4, 0), (5, 0), (6, 0), (7, 0)] := by
  refine ⟨(get_fcr_gauges_spec fcrSample).2.2.1,
    (get_fcr_gauges_spec fcrSample).2.2.2.2.2, ?_⟩
  have hm : fcr_months fcrSample = [2, 3, 4, 5, 6, 7] := by decide
  have h2 : fcr_value fcrSample 2 = 100 := by
    rw [fcr_value_eq_spec]
    have hd : fcr_denominator fcrSample 2 = 1 := by decide
    have hn : fcr_numerator fcrSample 2 = 1 := by decide
    unfold fcr_value_spec
    rw [hd, hn]
    norm_num
  have h3 : fcr_value fcrSample 3 = 0 := by
    rw [fcr_value_eq_spec]
    have hd : fcr_denominator fcrSample 3 = 1 := by decide
    have hn : fcr_numerator fcrSample 3 = 0 := by decide
    unfold fcr_value_spec
    rw [hd, hn]
    norm_num
  have h4 : ∀ m, fcr_denominator fcrSample m = 0 → fcr_value fcrSample m = 0 := by
    intro m hm0
    rw [fcr_value_eq_spec]
    unfold fcr_value_spec
    rw [hm0]
    simp
  unfold get_fcr_gauges
  rw [hm]
  simp only [List.map_cons, List.map_nil]
  rw [h2, h3, h4 4 (by decide), h4 5 (by decide), h4 6 (by decide), h4 7 (by decide)]

/-! ## Caller-visible effects on the input dataframe (C9)

`calculate_metrics` (line 128) takes `df.copy()` before adding columns, so
the caller's records are untouched.  `get_fcr_gauges` does not copy: line
154 executes `df[Created] = pd.to_datetime(df[Created], errors=coerce)` on
the caller's dataframe, replacing the raw `Created` column in place with
parsed timestamps (NaT for unparseable strings).  A cell of that column is
modelled as either a raw string (as loaded) or a parsed
timestamp-or-NaT. -/

inductive CreatedCell where
  | raw (s : String)
  | parsed (t : Option ℕ)
deriving DecidableEq

structure RawTicket where
  created : CreatedCell
  first_assignment_group : String
  assignment_group : String
  resolution_code : String
deriving DecidableEq

/-- The caller-visible effect of `calculate_metrics` (lines 127-142) on its
argument: `df = df.copy()` makes every later column assignment act on the
copy, so the caller's dataframe is returned unchanged. -/
def calculate_metrics_caller_effect (df : List RawTicket) : List RawTicket := df

/-- The caller-visible effect of line 154 of `get_fcr_gauges` on its
argument: the `Created` column is re-assigned, in place, with the result of
`pd.to_datetime(..., errors=coerce)`; the external timestamp parser is a
parameter of the model. -/
def get_fcr_gauges_caller_effect (parse : String → Option ℕ)
    (df : List RawTicket) : List RawTicket :=
  df.map (fun t =>
    { t with created := CreatedCell.parsed (match t.created with
        | CreatedCell.raw s => parse s
        | CreatedCell.parsed o => o) })

/-- A caller's row whose `Created` cell is still the raw loaded string. -/
def rawSampleTicket : RawTicket :=
  { created := CreatedCell.raw "2023-01-05 10:00:00",
    first_assignment_group := "Service Desk L1 Sweden",
    assignment_group := "Service Desk L1 Sweden",
    resolution_code := "Solved (Permanently)" }

/-- C9: `calculate_metrics` indeed leaves the caller's records unchanged,
but `get_fcr_gauges` does not — whatever the timestamp parser returns, the
caller's `Created` cells are replaced in place by their parsed form, so the
input sequence is mutated. -/
theorem get_fcr_gauges_mutates_input :
    (∀ df : List RawTicket, calculate_metrics_caller_effect df = df) ∧
    (∀ parse : String → Option ℕ,
      get_fcr_gauges_caller_effect parse [rawSampleTicket] ≠ [rawSampleTicket]) := by
  constructor
  · intro df
    rfl
  · intro parse h
    have h1 : ({ rawSampleTicket with
        created := CreatedCell.parsed (parse "2023-01-05 10:00:00") } : RawTicket)
        = rawSampleTicket := by
      have h0 := congrArg List.head? h
      simpa [get_fcr_gauges_caller_effect] using h0
    have h2 := congrArg RawTicket.created h1
    simp [rawSampleTicket] at h2

/-! ## Anomaly detector (`detect_metric_anomaly`, lines 77-100)

Series values are real numbers; `pandas.Series.std()` is the sample standard
deviation (ddof = 1): the square root of the sum of squared deviations from
the mean divided by (length - 1). -/

/-- Embedding of `Series.mean()`. -/
noncomputable def seriesMean (l : List ℝ) : ℝ := l.sum / l.length

/-- Embedding of `Series.std()` (pandas default ddof = 1). -/
noncomputable def sampleStd (l : List ℝ) : ℝ :=
  Real.sqrt ((l.map (fun x => (x - seriesMean l) ^ 2)).sum / (l.length - 1))

/-- Embedding of `detect_metric_anomaly` (lines 77-100): fewer than 3 points gives
INSUFFICIENT DATA; otherwise baseline = all points but the last, current =
the last point, `std` replaced by 0.001 when the baseline deviation is 0,
and the z-score is classified in priority order. -/
noncomputable def detect_metric_anomaly (series : List ℝ) (sigma_threshold : ℝ) :
    String × String :=
  if series.length < 3 then ("INSUFFICIENT DATA", "#64748b")
  else
    let baseline := series.dropLast
    let current := series.getLastD 0
    let mu := seriesMean baseline
    let std := if sampleStd baseline ≠ 0 then sampleStd baseline else 0.001
    let z := (current - mu) / std
    if z < -(sigma_threshold + 1) then ("CRITICAL PERFORMANCE DROP", "#F70D1A")
    else if z < -sigma_threshold then ("UNUSUAL DECREASE", "#FFBF00")
    else if z > sigma_threshold then ("SIGNIFICANT IMPROVEMENT", "#228B22")
    else ("STABLE PERFORMANCE", "#0C868A")

/-- The classification as the claim words it: identical pipeline, with the
epsilon substitution phrased as "std replaced by 0.001 when it equals 0". -/
noncomputable def classifySpec (series : List ℝ) (sigma_threshold : ℝ) :
    String × String :=
  if series.length < 3 then ("INSUFFICIENT DATA", "#64748b")
  else
    let baseline := series.dropLast
    let current := series.getLastD 0
    let mu := seriesMean baseline
    let std := if sampleStd baseline = 0 then 0.001 else sampleStd baseline
    let z := (current - mu) / std
    if z < -(sigma_threshold + 1) then ("CRITICAL PERFORMANCE DROP", "#F70D1A")
    else if z < -sigma_threshold then ("UNUSUAL DECREASE", "#FFBF00")
    else if z > sigma_threshold then ("SIGNIFICANT IMPROVEMENT", "#228B22")
    else ("STABLE PERFORMANCE", "#0C868A")

lemma mean_cons_concrete : seriesMean [10, 10, 10, 10] = 10 := by
  unfold seriesMean
  norm_num [List.sum_cons, List.sum_nil]

lemma std_cons_concrete : sampleStd [10, 10, 10, 10] = 0 := by
  unfold sampleStd
  rw [mean_cons_concrete]
  norm_num [List.map_cons, List.map_nil, List.sum_cons, List.sum_nil, Real.sqrt_zero]

/-- C5: the detector agrees with the claim's classification pipeline for
every series and threshold, and on [10,10,10,10,1] with threshold 2 the flat
baseline forces the 0.001 epsilon, z = -9000, and the verdict is CRITICAL
(red). -/
theorem detect_metric_anomaly_spec :
    (∀ (series : List ℝ) (sigma_threshold : ℝ),
      detect_metric_anomaly series sigma_threshold = classifySpec series sigma_threshold) ∧
    detect_metric_anomaly [10, 10, 10, 10, 1] 2 =
      ("CRITICAL PERFORMANCE DROP", "#F70D1A") := by
  constructor
  · intro series t
    by_cases h : sampleStd series.dropLast = 0
    · simp [detect_metric_anomaly, classifySpec, h]
    · simp [detect_metric_anomaly, classifySpec, h]
  · have hlen : ¬ ([10, 10, 10, 10, 1] : List ℝ).length < 3 := by norm_num
    have hdrop : ([10, 10, 10, 10, 1] : List ℝ).dropLast = [10, 10, 10, 10] := rfl
    have hlast : ([10, 10, 10, 10, 1] : List ℝ).getLastD 0 = 1 := rfl
    simp only [detect_metric_anomaly, hdrop, hlast, mean_cons_concrete, std_cons_concrete,
      if_neg hlen]
    norm_num

lemma mean_replicate (m : ℕ) (c : ℝ) (hm : m ≠ 0) :
    seriesMean (List.replicate m c) = c := by
  unfold seriesMean
  rw [List.sum_replicate, List.length_replicate, nsmul_eq_mul]
  have : (m : ℝ) ≠ 0 := Nat.cast_ne_zero.mpr hm
  field_simp

lemma std_replicate (m : ℕ) (c : ℝ) (hm : m ≠ 0) :
    sampleStd (List.replicate m c) = 0 := by
  unfold sampleStd
  rw [mean_replicate m c hm, List.map_replicate]
  simp [List.sum_replicate]

lemma getLastD_replicate (n : ℕ) (c : ℝ) (hn : n ≠ 0) :
    (List.replicate n c).getLastD 0 = c := by
  obtain ⟨m, rfl⟩ : ∃ m, n = m + 1 := ⟨n - 1, by omega⟩
  simp [List.getLastD_eq_getLast?, List.getLast?_replicate]

/-- C8 counterexample: the strictly flat 3-point series [5,5,5] with
`sigma_threshold = -1` is classified UNUSUAL DECREASE (yellow), not STABLE:
the flat baseline takes the 0.001 epsilon, z = 0, and 0 < -(-1). -/
theorem detect_flat_negative_threshold_not_stable :
    detect_metric_anomaly [5, 5, 5] (-1) = ("UNUSUAL DECREASE", "#FFBF00") ∧
    detect_metric_anomaly [5, 5, 5] (-1) ≠ ("STABLE PERFORMANCE", "#0C868A") := by
  have hlen : ¬ ([5, 5, 5] : List ℝ).length < 3 := by norm_num
  have hdrop : ([5, 5, 5] : List ℝ).dropLast = List.replicate 2 5 := by
    norm_num [List.replicate]
  have hlast : ([5, 5, 5] : List ℝ).getLastD 0 = 5 := rfl
  have hmean : seriesMean (List.replicate 2 (5 : ℝ)) = 5 :=
    mean_replicate 2 5 (by norm_num)
  have hstd : sampleStd (List.replicate 2 (5 : ℝ)) = 0 :=
    std_replicate 2 5 (by norm_num)
  have hres : detect_metric_anomaly [5, 5, 5] (-1) = ("UNUSUAL DECREASE", "#FFBF00") := by
    simp only [detect_metric_anomaly, hdrop, hlast, hmean, hstd, if_neg hlen]
    norm_num
  refine ⟨hres, ?_⟩
  rw [hres]
  intro h
  exact absurd (congrArg Prod.fst h) (by decide)

/-- C8 (amended): a strictly flat series of at least 3 identical values is
classified STABLE for every non-negative `sigma_threshold` (for a negative
threshold the zero z-score already exceeds `-sigma_threshold` and the
detector reports WARNING or CRITICAL instead). -/
theorem detect_flat_series_stable (n : ℕ) (c sigma_threshold : ℝ)
    (hn : 3 ≤ n) (ht : 0 ≤ sigma_threshold) :
    detect_metric_anomaly (List.replicate n c) sigma_threshold =
      ("STABLE PERFORMANCE", "#0C868A") := by
  have hlen : ¬ (List.replicate n c).length < 3 := by
    rw [List.length_replicate]; omega
  have hdrop : (List.replicate n c).dropLast = List.replicate (n - 1) c :=
    List.dropLast_replicate n c
  have hlast : (List.replicate n c).getLastD 0 = c :=
    getLastD_replicate n c (by omega)
  have hm1 : (n - 1 : ℕ) ≠ 0 := by omega
  have hmean : seriesMean (List.replicate (n - 1) c) = c := mean_replicate _ c hm1
  have hstd : sampleStd (List.replicate (n - 1) c) = 0 := std_replicate _ c hm1
  simp only [detect_metric_anomaly, hdrop, hlast, hmean, hstd, if_neg hlen]
  norm_num
  have h1 : ¬ (sigma_threshold < -1) := by linarith
  have h2 : ¬ (sigma_threshold < 0) := by linarith
  rw [if_neg h1, if_neg h2, if_neg h2]

/-- Witness for C8 (amended) at concrete inputs: the flat series [5,5,5]
with the default threshold 2 is STABLE. -/
theorem detect_flat_series_stable_witness :
    3 ≤ 3 ∧ (0 : ℝ) ≤ 2 ∧
    detect_metric_anomaly (List.replicate 3 (5 : ℝ)) 2 =
      ("STABLE PERFORMANCE", "#0C868A") :=
  ⟨le_refl 3, by norm_num, detect_flat_series_stable 3 5 2 (le_refl 3) (by norm_num)⟩

/-! ## Duration formatter (`format_duration`, lines 48-55)

A timedelta is modelled as a signed number of seconds (`none` = missing/NaT).
Python's `f"{n:02}"` is embedded as the decimal digit string left-padded with
a zero to width at least 2 (`natDigits`, `pad2`); the fuel argument of
`natDigitsAux` only drives structural recursion (fuel `n + 1` always
suffices since `n / 10 < n`). -/

def natDigitsAux (fuel n : ℕ) : List Char :=
  match fuel with
  | 0 => []
  | fuel + 1 =>
      if n < 10 then [Nat.digitChar n]
      else natDigitsAux fuel (n / 10) ++ [Nat.digitChar (n % 10)]

/-- The decimal digit characters of `n` (most significant first). -/
def natDigits (n : ℕ) : List Char := natDigitsAux (n + 1) n

/-- Python `f"{n:02}"`: decimal digits, zero-padded to width at least 2. -/
def pad2 (n : ℕ) : List Char :=
  if n < 10 then '0' :: natDigits n else natDigits n

/-- The character list `DD:HH:MM:SS` of a non-negative number of seconds:
`days = td.days`, then `divmod(td.seconds, 3600)` and `divmod(rem, 60)`. -/
def durationChars (n : ℕ) : List Char :=
  pad2 (n / 86400) ++ ':' ::
    (pad2 (n % 86400 / 3600) ++ ':' ::
      (pad2 (n % 86400 % 3600 / 60) ++ ':' :: pad2 (n % 86400 % 3600 % 60)))

/-- Embedding of `format_duration` (lines 48-55): null or negative input gives the zero
string, otherwise days/hours/minutes/seconds each zero-padded to two
digits. -/
def format_duration (td : Option ℤ) : String :=
  match td with
  | none => "00:00:00:00"
  | some t =>
      if t < 0 then "00:00:00:00"
      else String.mk (durationChars t.toNat)

lemma natDigitsAux_fuel (fuel₁ : ℕ) : ∀ (fuel₂ n : ℕ), n < fuel₁ → n < fuel₂ →
    natDigitsAux fuel₁ n = natDigitsAux fuel₂ n := by
  induction fuel₁ with
  | zero => intro fuel₂ n h1 _; omega
  | succ f ih =>
      intro fuel₂ n h1 h2
      cases fuel₂ with
      | zero => omega
      | succ g =>
          simp only [natDigitsAux]
          by_cases h : n < 10
          · simp [h]
          · simp only [h, if_false]
            rw [ih g (n / 10) (by omega) (by omega)]

lemma natDigits_small {n : ℕ} (h : n < 10) : natDigits n = [Nat.digitChar n] := by
  simp [natDigits, natDigitsAux, h]

lemma natDigits_large {n : ℕ} (h : ¬ n < 10) :
    natDigits n = natDigits (n / 10) ++ [Nat.digitChar (n % 10)] := by
  unfold natDigits
  conv =>
    lhs
    rw [natDigitsAux]
  simp only [h, if_false]
  rw [natDigitsAux_fuel n (n / 10 + 1) (n / 10) (by omega) (by omega)]

lemma digitChar_isDigit : ∀ m, m < 10 → (Nat.digitChar m).isDigit = true := by decide

lemma digitChar_lt_iff :
    ∀ x, x < 10 → ∀ y, y < 10 → ((Nat.digitChar x < Nat.digitChar y) ↔ x < y) := by
  decide

lemma digitChar_inj :
    ∀ x, x < 10 → ∀ y, y < 10 → ((Nat.digitChar x = Nat.digitChar y) ↔ x = y) := by
  decide

lemma natDigitsAux_digits (fuel : ℕ) : ∀ n, n < fuel →
    ∀ c ∈ natDigitsAux fuel n, c.isDigit = true := by
  induction fuel with
  | zero => intro n h; omega
  | succ f ih =>
      intro n h c hc
      simp only [natDigitsAux] at hc
      by_cases h10 : n < 10
      · simp only [h10, if_true, List.mem_singleton] at hc
        subst hc
        exact digitChar_isDigit n h10
      · simp only [h10, if_false, List.mem_append, List.mem_singleton] at hc
        rcases hc with hc | hc
        · exact ih (n / 10) (by omega) c hc
        · subst hc
          exact digitChar_isDigit (n % 10) (by omega)

lemma natDigits_digits (n : ℕ) : ∀ c ∈ natDigits n, c.isDigit = true :=
  natDigitsAux_digits (n + 1) n (by omega)

lemma natDigitsAux_ne_nil (fuel : ℕ) : ∀ n, n < fuel → natDigitsAux fuel n ≠ [] := by
  induction fuel with
  | zero => intro n h; omega
  | succ f _ =>
      intro n _
      simp only [natDigitsAux]
      by_cases h10 : n < 10
      · simp [h10]
      · simp [h10]

lemma pad2_digits (n : ℕ) : ∀ c ∈ pad2 n, c.isDigit = true := by
  unfold pad2
  by_cases h : n < 10
  · simp only [h, if_true]
    intro c hc
    rcases List.mem_cons.mp hc with hc | hc
    · subst hc; decide
    · exact natDigits_digits n c hc
  · simp only [h, if_false]
    exact natDigits_digits n

lemma pad2_length_ge_two (n : ℕ) : 2 ≤ (pad2 n).length := by
  unfold pad2
  by_cases h : n < 10
  · rw [if_pos h, natDigits_small h]
    simp
  · rw [if_neg h, natDigits_large h]
    have h1 : natDigits (n / 10) ≠ [] :=
      natDigitsAux_ne_nil (n / 10 + 1) (n / 10) (by omega)
    have h2 : 1 ≤ (natDigits (n / 10)).length := by
      cases hl : natDigits (n / 10) with
      | nil => exact absurd hl h1
      | cons a l => simp
    simp only [List.length_append, List.length_singleton]
    omega

lemma pad2_eq_two_digits {n : ℕ} (h : n < 100) :
    pad2 n = [Nat.digitChar (n / 10), Nat.digitChar (n % 10)] := by
  unfold pad2
  by_cases h10 : n < 10
  · rw [if_pos h10, natDigits_small h10]
    have h1 : n / 10 = 0 := by omega
    have h2 : n % 10 = n := by omega
    rw [h1, h2]
    rfl
  · rw [if_neg h10, natDigits_large h10, natDigits_small (show n / 10 < 10 by omega)]
    rfl

lemma pad2_length_two {n : ℕ} (h : n < 100) : (pad2 n).length = 2 := by
  rw [pad2_eq_two_digits h]
  rfl

lemma lex_cons_iff (x y : Char) (la lb : List Char) :
    List.Lex (· < ·) (x :: la) (y :: lb) ↔
      (x < y ∨ (x = y ∧ List.Lex (· < ·) la lb)) := by
  constructor
  · intro h
    cases h with
    | cons h => exact Or.inr ⟨rfl, h⟩
    | rel h => exact Or.inl h
  · rintro (h | ⟨rfl, h⟩)
    · exact List.Lex.rel h
    · exact List.Lex.cons h

lemma lex_sep_iff (ra rb : List Char) :
    List.Lex (· < ·) (':' :: ra) (':' :: rb) ↔ List.Lex (· < ·) ra rb := by
  rw [lex_cons_iff]
  simp

lemma lex_pad2_append {a b : ℕ} (ha : a < 100) (hb : b < 100) (ra rb : List Char) :
    List.Lex (· < ·) (pad2 a ++ ra) (pad2 b ++ rb) ↔
      (a < b ∨ (a = b ∧ List.Lex (· < ·) ra rb)) := by
  rw [pad2_eq_two_digits ha, pad2_eq_two_digits hb]
  simp only [List.cons_append, List.nil_append]
  rw [lex_cons_iff, lex_cons_iff]
  rw [digitChar_lt_iff (a / 10) (by omega) (b / 10) (by omega),
    digitChar_inj (a / 10) (by omega) (b / 10) (by omega),
    digitChar_lt_iff (a % 10) (by omega) (b % 10) (by omega),
    digitChar_inj (a % 10) (by omega) (b % 10) (by omega)]
  constructor
  · rintro (h | ⟨h1, (h2 | ⟨h3, hP⟩)⟩)
    · left; omega
    · left; omega
    · right; exact ⟨by omega, hP⟩
  · rintro (h | ⟨h1, hP⟩)
    · by_cases hq : a / 10 < b / 10
      · exact Or.inl hq
      · exact Or.inr ⟨by omega, Or.inl (by omega)⟩
    · exact Or.inr ⟨by omega, Or.inr ⟨by omega, hP⟩⟩

lemma lex_pad2_iff {a b : ℕ} (ha : a < 100) (hb : b < 100) :
    List.Lex (· < ·) (pad2 a) (pad2 b) ↔ a < b := by
  have h := lex_pad2_append ha hb [] []
  simp only [List.append_nil] at h
  rw [h]
  constructor
  · rintro (h' | ⟨_, h'⟩)
    · exact h'
    · cases h'
  · exact Or.inl

lemma durationChars_not_lt {na nb : ℕ} (hle : na ≤ nb) (hb : nb < 8640000) :
    ¬ List.Lex (· < ·) (durationChars nb) (durationChars na) := by
  intro h
  unfold durationChars at h
  rw [lex_pad2_append (by omega) (by omega)] at h
  rcases h with h | ⟨h1, h⟩
  · omega
  rw [lex_sep_iff, lex_pad2_append (by omega) (by omega)] at h
  rcases h with h | ⟨h2, h⟩
  · omega
  rw [lex_sep_iff, lex_pad2_append (by omega) (by omega)] at h
  rcases h with h | ⟨h3, h⟩
  · omega
  rw [lex_sep_iff, lex_pad2_iff (by omega) (by omega)] at h
  omega

lemma format_duration_neg {t : ℤ} (h : t < 0) :
    format_duration (some t) = "00:00:00:00" := by
  simp [format_duration, h]

lemma format_duration_nonneg {t : ℤ} (h : 0 ≤ t) :
    format_duration (some t) = String.mk (durationChars t.toNat) := by
  have h' : ¬ t < 0 := by omega
  simp [format_duration, h']

/-- C7 counterexample: 100 days is a longer duration than 99 days 23:59:59,
but its formatted string "100:00:00:00" compares lexicographically below
"99:23:59:59" (the day field widens to three digits), so `format` is not
monotonic with duration under the string order. -/
theorem format_duration_not_monotonic :
    (8639999 : ℤ) ≤ 8640000 ∧
    format_duration (some 8640000) < format_duration (some 8639999) := by
  constructor
  · decide
  · rw [String.lt_iff_toList_lt]
    decide

lemma zero_string_eq : ("00:00:00:00" : String) = String.mk (durationChars 0) := by
  decide

/-- C7 (amended): `format` always yields the exact `DD:HH:MM:SS` shape (all
digit fields, days at least two digits and unbounded, the others exactly
two); null and negative inputs yield "00:00:00:00"; and the output is
monotonic with duration as long as the larger duration stays below 100 days
(beyond that the widening day field breaks lexicographic monotonicity, as
the counterexample shows). -/
theorem format_duration_spec :
    (∀ td : Option ℤ, ∃ dd hh mm ss : List Char,
      (format_duration td).data = dd ++ ':' :: (hh ++ ':' :: (mm ++ ':' :: ss)) ∧
      2 ≤ dd.length ∧ hh.length = 2 ∧ mm.length = 2 ∧ ss.length = 2 ∧
      (∀ c ∈ dd, c.isDigit = true) ∧ (∀ c ∈ hh, c.isDigit = true) ∧
      (∀ c ∈ mm, c.isDigit = true) ∧ (∀ c ∈ ss, c.isDigit = true)) ∧
    format_duration none = "00:00:00:00" ∧
    (∀ t : ℤ, t < 0 → format_duration (some t) = "00:00:00:00") ∧
    (∀ a b : ℤ, a ≤ b → b < 8640000 →
      ¬ format_duration (some b) < format_duration (some a)) := by
  have hshape : ∀ n : ℕ, ∃ dd hh mm ss : List Char,
      (String.mk (durationChars n)).data = dd ++ ':' :: (hh ++ ':' :: (mm ++ ':' :: ss)) ∧
      2 ≤ dd.length ∧ hh.length = 2 ∧ mm.length = 2 ∧ ss.length = 2 ∧
      (∀ c ∈ dd, c.isDigit = true) ∧ (∀ c ∈ hh, c.isDigit = true) ∧
      (∀ c ∈ mm, c.isDigit = true) ∧ (∀ c ∈ ss, c.isDigit = true) := by
    intro n
    refine ⟨pad2 (n / 86400), pad2 (n % 86400 / 3600), pad2 (n % 86400 % 3600 / 60),
      pad2 (n % 86400 % 3600 % 60), rfl, pad2_length_ge_two _,
      pad2_length_two (by omega), pad2_length_two (by omega), pad2_length_two (by omega),
      pad2_digits _, pad2_digits _, pad2_digits _, pad2_digits _⟩
  have hmono : ∀ a b : ℤ, 0 ≤ a → a ≤ b → b < 8640000 →
      ¬ format_duration (some b) < format_duration (some a) := by
    intro a b ha hab hb h
    rw [format_duration_nonneg (by omega), format_duration_nonneg (by omega)] at h
    rw [String.lt_iff_toList_lt] at h
    exact durationChars_not_lt (by omega) (by omega) h
  refine ⟨?_, rfl, fun t ht => format_duration_neg ht, ?_⟩
  · intro td
    match td with
    | none =>
        rw [show format_duration none = String.mk (durationChars 0) from zero_string_eq]
        exact hshape 0
    | some t =>
        by_cases ht : t < 0
        · rw [format_duration_neg ht, zero_string_eq]
          exact hshape 0
        · rw [format_duration_nonneg (by omega)]
          exact hshape t.toNat
  · intro a b hab hb h
    by_cases hb0 : b < 0
    · rw [format_duration_neg hb0, format_duration_neg (show a < 0 by omega)] at h
      exact lt_irrefl _ h
    · by_cases ha0 : a < 0
      · have hz : format_duration (some (0 : ℤ)) = "00:00:00:00" := by decide
        rw [format_duration_neg ha0, ← hz] at h
        exact hmono 0 b (by omega) (by omega) hb h
      · exact hmono a b (by omega) hab hb h

/-- Witness for C7 (amended) at concrete inputs: 1 day 01:01:01 formats to
the four two-digit fields, a negative duration formats to the zero string,
and one hour is not formatted above two hours. -/
theorem format_duration_spec_witness :
    format_duration (some 90061) = "01:01:01:01" ∧
    format_duration none = "00:00:00:00" ∧
    ((-5 : ℤ) < 0 → format_duration (some (-5)) = "00:00:00:00") ∧
    ((3600 : ℤ) ≤ 7200 → (7200 : ℤ) < 8640000 →
      ¬ format_duration (some 7200) < format_duration (some 3600)) :=
  ⟨by decide,
   format_duration_spec.2.1,
   fun _ => format_duration_spec.2.2.1 (-5) (by decide),
   fun _ _ => format_duration_spec.2.2.2 3600 7200 (by decide) (by decide)⟩
